import Mathlib

/-!
Verification development for the PowerPoint ReAct agent (`src/agent/graph.py`).

The Python module is shallowly embedded: the outcome of each external child
process (`dotnet restore` / `dotnet build` / `dotnet run`) is supplied by an
environment record, and the control flow of `execute_csharp_code` /
`execute_reading_code` is translated branch by branch, threading the
existence of the temporary working directory as explicit state.
-/

namespace PptxAgent

/-- Result of a completed `subprocess.run` call: exit code and captured
standard streams (`capture_output=True, text=True`). -/
structure ProcResult where
  returncode : Int
  stdout : String
  stderr : String
deriving Repr, DecidableEq

/-- Outcome of one `subprocess.run` invocation as observed by the Python
caller: the process completed, the call raised `subprocess.TimeoutExpired`,
or it raised some other exception (carrying `str(e)`). -/
inductive StepOutcome where
  | completed (r : ProcResult)
  | timedOut
  | fault (msg : String)
deriving Repr, DecidableEq

/-- Python exception escaping a statement: `subprocess.TimeoutExpired` or any
other `Exception` (carrying `str(e)`). -/
inductive PyExc where
  | timeoutExpired
  | other (msg : String)
deriving Repr, DecidableEq

/-- The `dict` returned by the executors: `{"success": True, "output": ...}`
or `{"success": False, "error": ...}`. -/
inductive ExecOutcome where
  | success (output : String)
  | failure (error : String)
deriving Repr, DecidableEq

/-- How a call to an executor coroutine ends: it returns a dict, or an
exception propagates out of it. -/
inductive CallResult where
  | returned (d : ExecOutcome)
  | raised (e : PyExc)
deriving Repr, DecidableEq

/-- Environment of one `execute_csharp_code` invocation: the template text of
`Program.cs`, the caller's code fragment, a possible fault while the working
area is being populated (the `shutil.copy2` / `aiofiles` writes performed
after `mkdtemp` but before the `try` block), and the outcomes of the three
child-process steps. -/
structure ModifyEnv where
  template : String
  code : String
  copyFault : Option String
  restore : StepOutcome
  build : StepOutcome
  run : StepOutcome
deriving Repr, DecidableEq

/-- Fuel-driven worker for `pyReplace`: scan the haystack left to right,
replacing each non-overlapping occurrence of the pattern.  The fuel starts
at the haystack length and drops at least as fast, so it never runs dry. -/
def pyReplaceAux : Nat → List Char → List Char → List Char → List Char
  | 0, hay, _, _ => hay
  | _ + 1, [], _, _ => []
  | n + 1, c :: rest, pat, rep =>
    if pat.isPrefixOf (c :: rest) then
      rep ++ pyReplaceAux n ((c :: rest).drop pat.length) pat rep
    else
      c :: pyReplaceAux n rest pat rep

/-- Python `str.replace` for a non-empty pattern: every non-overlapping
occurrence, scanned left to right, is replaced.  Written with structural
fuel so that it evaluates inside the kernel. -/
def pyReplace (s pat rep : String) : String :=
  if pat = "" then s
  else ⟨pyReplaceAux s.toList.length s.toList pat.toList rep.toList⟩

/-- Worker for `pySplitLines`, accumulating the current line reversed. -/
def pySplitLinesAux : List Char → List Char → List String
  | [], acc => [⟨acc.reverse⟩]
  | c :: rest, acc =>
    if c = '\n' then ⟨acc.reverse⟩ :: pySplitLinesAux rest []
    else pySplitLinesAux rest (c :: acc)

/-- Python `str.split('\n')`: split on every newline; the empty string
yields `[""]`. -/
def pySplitLines (s : String) : List String :=
  pySplitLinesAux s.toList []

/-- `full_code = template_content.replace("// {CODE}", code)`. -/
def fullCode (env : ModifyEnv) : String :=
  pyReplace env.template "// {CODE}" env.code

/-- Lines of the generated source numbered from 1:
`[f"{i+1}: {line}" for i, line in enumerate(lines)]` after
`lines = generated_code.split('\n')`. -/
def numberedLines (source : String) : List String :=
  (pySplitLines source).enum.map (fun p => toString (p.1 + 1) ++ ": " ++ p.2)

/-- `'\n'.join(numbered_lines[:50])`: the excerpt shown on build failure. -/
def numberedExcerpt (source : String) : String :=
  String.intercalate "\n" ((numberedLines source).take 50)

/-- `shutil.rmtree(temp_dir)`: removes the directory when it exists, raises
`FileNotFoundError` when it is already absent.  The `Bool` is whether the
temporary working directory exists. -/
def rmtree (fs : Bool) : Except PyExc Bool :=
  if fs then .ok false else .error (.other "FileNotFoundError")

/-- The generic exception handler's cleanup (graph.py lines 284-285):
`if os.path.exists(temp_dir): shutil.rmtree(temp_dir)` — the existence guard
makes the delete tolerate an already-absent working area. -/
def guardedCleanup (fs : Bool) : Except PyExc Bool :=
  if fs then rmtree fs else .ok fs

/-- Lift one child-process step, recording the directory state at the point
an exception is raised. -/
def stepE (s : StepOutcome) (fs : Bool) : Except (PyExc × Bool) ProcResult :=
  match s with
  | .completed r => .ok r
  | .timedOut => .error (.timeoutExpired, fs)
  | .fault m => .error (.other m, fs)

/-- Lift `rmtree`, recording the directory state at the point an exception is
raised. -/
def rmtreeE (fs : Bool) : Except (PyExc × Bool) Bool :=
  match rmtree fs with
  | .ok fs' => .ok fs'
  | .error e => .error (e, fs)

/-- Body of the `try` block of `execute_csharp_code` (graph.py lines
219-278), started with the working directory existing (`fs`).  Returns the
dict together with the final directory state, or the escaping exception
together with the directory state at the raise point. -/
def csharpTryBody (env : ModifyEnv) (fs : Bool) :
    Except (PyExc × Bool) (ExecOutcome × Bool) :=
  match stepE env.restore fs with
  | .error e => .error e
  | .ok restoreResult =>
    if restoreResult.returncode ≠ 0 then
      match rmtreeE fs with
      | .error e => .error e
      | .ok fs' =>
        .ok (.failure ("Package restore failed: " ++ restoreResult.stderr), fs')
    else
      match stepE env.build fs with
      | .error e => .error e
      | .ok buildResult =>
        if buildResult.returncode ≠ 0 then
          match rmtreeE fs with
          | .error e => .error e
          | .ok fs' =>
            .ok (.failure ("Build failed:\n" ++ buildResult.stderr ++ "\n" ++
              buildResult.stdout ++ "\n\nGenerated code (first 50 lines):\n" ++
              numberedExcerpt (fullCode env)), fs')
        else
          match stepE env.run fs with
          | .error e => .error e
          | .ok result =>
            match rmtreeE fs with
            | .error e => .error e
            | .ok fs' =>
              if result.returncode = 0 then
                .ok (.success result.stdout, fs')
              else if result.returncode = 2 then
                .ok (.failure
                  ("Validation failed - the modifications would corrupt the PowerPoint file:\n"
                    ++ result.stdout), fs')
              else
                .ok (.failure ("Execution error: " ++
                  (if result.stderr = "" then result.stdout else result.stderr)), fs')

/-- `execute_csharp_code` (graph.py lines 185-286).  `mkdtemp` creates the
working directory; a fault while populating it (before the `try`) propagates
uncaught; inside the `try`, `subprocess.TimeoutExpired` is answered with an
unconditional `rmtree` and the timeout message, and any other exception with
an existence-guarded `rmtree` and `str(e)`. -/
def execute_csharp_code (env : ModifyEnv) : CallResult × Bool :=
  match env.copyFault with
  | some m => (.raised (.other m), true)
  | none =>
    match csharpTryBody env true with
    | .ok (d, fs) => (.returned d, fs)
    | .error (.timeoutExpired, fs) =>
      match rmtree fs with
      | .ok fs' =>
        (.returned (.failure "Code execution timed out after 60 seconds"), fs')
      | .error e => (.raised e, fs)
    | .error (.other m, fs) =>
      match guardedCleanup fs with
      | .ok fs' => (.returned (.failure m), fs')
      | .error e => (.raised e, fs)

/-- Environment of one `execute_reading_code` invocation: a possible fault
while the working area is being populated, and the outcomes of the two
child-process steps (build, run); the reading pipeline has no separate
restore step. -/
structure ReadingEnv where
  copyFault : Option String
  build : StepOutcome
  run : StepOutcome
deriving Repr, DecidableEq

/-- Body of the `try` block of `execute_reading_code` (graph.py lines
378-411): build, run, cleanup, then classify by exit code with no special
case for the validation sentinel. -/
def readingTryBody (env : ReadingEnv) (fs : Bool) :
    Except (PyExc × Bool) (ExecOutcome × Bool) :=
  match stepE env.build fs with
  | .error e => .error e
  | .ok buildResult =>
    if buildResult.returncode ≠ 0 then
      match rmtreeE fs with
      | .error e => .error e
      | .ok fs' =>
        .ok (.failure ("Build failed: " ++ buildResult.stderr), fs')
    else
      match stepE env.run fs with
      | .error e => .error e
      | .ok result =>
        match rmtreeE fs with
        | .error e => .error e
        | .ok fs' =>
          if result.returncode = 0 then
            .ok (.success result.stdout, fs')
          else
            .ok (.failure ("Execution error: " ++
              (if result.stderr = "" then result.stdout else result.stderr)), fs')

/-- `execute_reading_code` (graph.py lines 315-419); same shape as the modify
pipeline but with the shorter timeout message `"Code execution timed out"`. -/
def execute_reading_code (env : ReadingEnv) : CallResult × Bool :=
  match env.copyFault with
  | some m => (.raised (.other m), true)
  | none =>
    match readingTryBody env true with
    | .ok (d, fs) => (.returned d, fs)
    | .error (.timeoutExpired, fs) =>
      match rmtree fs with
      | .ok fs' => (.returned (.failure "Code execution timed out"), fs')
      | .error e => (.raised e, fs)
    | .error (.other m, fs) =>
      match guardedCleanup fs with
      | .ok fs' => (.returned (.failure m), fs')
      | .error e => (.raised e, fs)

/-- One structured tool-call request attached to an AI message. -/
structure ToolCall where
  name : String
  args : String
deriving Repr, DecidableEq

/-- Conversation message.  Only AI messages carry a `tool_calls` attribute
(possibly empty); human and tool messages have no such attribute, which
matches the `hasattr(last_message, 'tool_calls')` test in the source. -/
inductive Message where
  | human (content : String)
  | ai (content : String) (tool_calls : List ToolCall)
  | toolMsg (content : String) (tool_call_id : String)
deriving Repr, DecidableEq

/-- Python attribute access `m.tool_calls` guarded by `hasattr`: `none` when
the attribute is absent. -/
def toolCallsAttr : Message → Option (List ToolCall)
  | .ai _ tcs => some tcs
  | _ => none

/-- `hasattr(last_message, 'tool_calls') and last_message.tool_calls`: the
attribute exists and the list is non-empty (truthy). -/
def hasToolCalls (m : Message) : Bool :=
  match toolCallsAttr m with
  | some (_ :: _) => true
  | _ => false

/-- Graph state (`State` dataclass, graph.py lines 33-45): conversation
history and the path of the PowerPoint file being edited. -/
structure AgentState where
  messages : List Message
  pptx_file_path : Option String
deriving Repr, DecidableEq

/-- `preserve_value` (graph.py lines 28-30): reducer that keeps the current
value when the update is `None`. -/
def preserve_value (current update : Option String) : Option String :=
  match update with
  | some u => some u
  | none => current

/-- Modelled from the spec: the reducer attached to the conversation-history
field is the external `add_messages` (langgraph library, not part of this
repository); per the spec the history field "always appends". -/
def add_messages (current update : List Message) : List Message :=
  current ++ update

/-- Merge of a state update into the current state, applying each field's
annotated reducer (`add_messages` for `messages`, `preserve_value` for
`pptx_file_path`, graph.py lines 41-45). -/
def merge_state (s : AgentState) (u : AgentState) : AgentState :=
  { messages := add_messages s.messages u.messages
    pptx_file_path := preserve_value s.pptx_file_path u.pptx_file_path }

/-- Python truthiness of the optional path: `not pptx_file_path` is true for
`None` and for the empty string. -/
def pathTruthy : Option String → Bool
  | none => false
  | some s => s ≠ ""

/-- `should_continue` (graph.py lines 521-531): routes on the last message.
`messages[-1]` on an empty history raises `IndexError`, modelled as `none`. -/
def should_continue (state : AgentState) : Option String :=
  match state.messages.getLast? with
  | none => none
  | some last => some (if hasToolCalls last then "tools" else "end")

/-- Plain edges of the compiled workflow graph (graph.py lines 542, 551). -/
def workflow_edges : List (String × String) :=
  [("__start__", "llm"), ("tools", "llm")]

/-- Conditional-edge mapping attached to the `llm` node (graph.py lines
543-550): the value returned by `should_continue` selects the next node. -/
def workflow_conditional_map : List (String × String) :=
  [("tools", "tools"), ("end", "__end__")]

/-- Retry rule stated inside `SYSTEM_PROMPT` (graph.py line 130); it is an
instruction to the external decision function, not code. -/
def SYSTEM_PROMPT_retry_rule : String :=
  "6. If an error occurs, try to fix once only, and if it fails again, provide explanation and then end, no more retries"

/-- Tool `execute_pptx_code` (graph.py lines 289-312): precondition check on
the path, then dispatch to the sandbox and packaging of the outcome. -/
def execute_pptx_code (code : String) (state : AgentState) (env : ModifyEnv) :
    Except PyExc String :=
  if pathTruthy state.pptx_file_path then
    match execute_csharp_code { env with code := code } with
    | (.returned (.success out), _) =>
      .ok ("Code executed successfully. Output: " ++ out)
    | (.returned (.failure err), _) => .ok ("Execution failed: " ++ err)
    | (.raised e, _) => .error e
  else
    .ok "Error: No PowerPoint file path provided in state"

/-- Tool `read_pptx_structure` (graph.py lines 422-453). -/
def read_pptx_structure (state : AgentState) (env : ReadingEnv) :
    Except PyExc String :=
  if pathTruthy state.pptx_file_path then
    match execute_reading_code env with
    | (.returned (.success out), _) => .ok out
    | (.returned (.failure err), _) =>
      .ok ("Failed to read presentation structure: " ++ err)
    | (.raised e, _) => .error e
  else
    .ok "Error: No PowerPoint file path provided in state"

/-- Tool `read_slide_details` (graph.py lines 456-493). -/
def read_slide_details (slide_numbers : List Int) (state : AgentState)
    (env : ReadingEnv) : Except PyExc String :=
  if pathTruthy state.pptx_file_path then
    match execute_reading_code env with
    | (.returned (.success out), _) => .ok out
    | (.returned (.failure err), _) =>
      .ok ("Failed to read slide details: " ++ err)
    | (.raised e, _) => .error e
  else
    .ok "Error: No PowerPoint file path provided in state"

/-- Timeout passed to `subprocess.run` for `dotnet restore` in
`execute_csharp_code` (graph.py line 226). -/
def modify_restore_timeout : Nat := 30

/-- Timeout passed to `subprocess.run` for `dotnet build` in
`execute_csharp_code` (graph.py line 240). -/
def modify_build_timeout : Nat := 30

/-- Timeout passed to `subprocess.run` for `dotnet run` in
`execute_csharp_code` (graph.py line 263). -/
def modify_run_timeout : Nat := 60

/-- Timeout passed to `subprocess.run` for `dotnet build` in
`execute_reading_code` (graph.py line 385). -/
def reading_build_timeout : Nat := 30

/-- Timeout passed to `subprocess.run` for `dotnet run` in
`execute_reading_code` (graph.py line 400). -/
def reading_run_timeout : Nat := 60

/-- Character for a decimal digit `d < 10`. -/
def digitChar (d : Nat) : Char := Char.ofNat (48 + d)

/-- Fuel-driven rendering of the decimal digits of `n` in front of `acc`;
the fuel starts at `n`, which is enough since the argument at least halves
every step. -/
def natDigitsCore : Nat → Nat → List Char → List Char
  | 0, _, acc => acc
  | _ + 1, 0, acc => acc
  | fuel + 1, n + 1, acc =>
    natDigitsCore fuel ((n + 1) / 10) (digitChar ((n + 1) % 10) :: acc)

/-- Decimal rendering of a natural number, no leading zeros. -/
def natDigits (n : Nat) : List Char :=
  if n = 0 then ['0'] else natDigitsCore n n []

/-- Consume a run of decimal digits, accumulating their value onto `a`. -/
def readDigits : Nat → List Char → Nat × List Char
  | a, [] => (a, [])
  | a, c :: cs => if c.isDigit then readDigits (a * 10 + (c.toNat - 48)) cs else (a, c :: cs)

/-- Parse a non-empty run of decimal digits into its value and the rest. -/
def parseNat : List Char → Option (Nat × List Char)
  | [] => none
  | c :: cs => if c.isDigit then some (readDigits (c.toNat - 48) cs) else none

/-- The list is empty or starts with a non-digit; the shape of the residue a
digit run is parsed in front of. -/
def headNotDigit : List Char → Prop
  | [] => True
  | c :: _ => c.isDigit = false

/-- Modelled from the spec: the structural roles an anchor can name ("title,
body, bullet, etc."); the implementing `PptxReader.cs` is not under `src/`. -/
inductive AnchorKind where
  | title
  | body
  | bullet
deriving Repr, DecidableEq

/-- Name of each element kind as it appears inside an anchor token. -/
def kindChars : AnchorKind → List Char
  | .title => ['t', 'i', 't', 'l', 'e']
  | .body => ['b', 'o', 'd', 'y']
  | .bullet => ['b', 'u', 'l', 'l', 'e', 't']

/-- Whitespace characters stripped from content before hashing. -/
def isSpaceChar (c : Char) : Bool :=
  c = ' ' || c = '\t' || c = '\n' || c = '\r'

/-- Python `str.strip`: drop leading and trailing whitespace. -/
def pyStrip (s : String) : String :=
  ⟨((s.toList.dropWhile isSpaceChar).reverse.dropWhile isSpaceChar).reverse⟩

/-- Modelled from the spec: a deterministic short content hash of the
trimmed text ("digest = first 6-8 hex characters of a content hash (e.g.,
of the trimmed text)"); the concrete hash of `PptxReader.cs` is not under
`src/`, so a simple deterministic accumulator over the trimmed characters,
bounded to six hex digits, stands for it. -/
def contentHash (c : String) : Nat :=
  (pyStrip c).toList.foldl (fun hh ch => (hh * 31 + ch.toNat) % 16777216) 5381

/-- Hexadecimal digit membership (0-9, a-f, A-F). -/
def isHexDigitChar (c : Char) : Bool :=
  c.isDigit || ('a' <= c && c <= 'f') || ('A' <= c && c <= 'F')

/-- Lowercase hex character for `d < 16`. -/
def hexChar (d : Nat) : Char :=
  if d < 10 then Char.ofNat (48 + d) else Char.ofNat (87 + d)

/-- The six lowercase hex characters of a digest value. -/
def digestChars (h : Nat) : List Char :=
  [hexChar (h / 16 ^ 5 % 16), hexChar (h / 16 ^ 4 % 16), hexChar (h / 16 ^ 3 % 16),
   hexChar (h / 16 ^ 2 % 16), hexChar (h / 16 % 16), hexChar (h % 16)]

/-- The rendered digest of a content string: a fresh hash of the content. -/
def digestOf (content : String) : String :=
  ⟨digestChars (contentHash content)⟩

/-- Modelled from the spec: `encode(containerIndex, kind, localIndex,
content)` produces the anchor token `slide{num}_{kind}{index}_{digest}`
(spec section 4.1 and the system-prompt anchor format); `PptxReader.cs` is
not under `src/`. -/
def encode (containerIndex : Nat) (kind : AnchorKind) (localIndex : Nat)
    (content : String) : String :=
  ⟨'s' :: 'l' :: 'i' :: 'd' :: 'e' ::
    (natDigits containerIndex ++ '_' ::
      (kindChars kind ++ (natDigits localIndex ++ '_' :: digestChars (contentHash content))))⟩

/-- Result of parsing an anchor token. -/
structure ParsedAnchor where
  containerIndex : Nat
  kind : AnchorKind
  localIndex : Nat
  digest : String
deriving Repr, DecidableEq

/-- Failure mode of the anchor parser. -/
inductive AnchorError where
  | malformedAnchor
deriving Repr, DecidableEq

/-- Parse the element-kind name off the front of the token remainder. -/
def parseKind : List Char → Option (AnchorKind × List Char)
  | 't' :: 'i' :: 't' :: 'l' :: 'e' :: rest => some (.title, rest)
  | 'b' :: 'o' :: 'd' :: 'y' :: rest => some (.body, rest)
  | 'b' :: 'u' :: 'l' :: 'l' :: 'e' :: 't' :: rest => some (.bullet, rest)
  | _ => none

/-- Parse the trailing digest: exactly six hex characters ending the token. -/
def parseDigest : List Char → Option String
  | [c1, c2, c3, c4, c5, c6] =>
    if isHexDigitChar c1 && isHexDigitChar c2 && isHexDigitChar c3 && isHexDigitChar c4 &&
        isHexDigitChar c5 && isHexDigitChar c6 then
      some ⟨[c1, c2, c3, c4, c5, c6]⟩
    else none
  | _ => none

/-- Modelled from the spec: `parse(Anchor)` recovers container index, kind,
local index and digest, failing with `MalformedAnchor` when the token does
not match the three-part grammar; `PptxReader.cs` is not under `src/`. -/
def parse (anchor : String) : Except AnchorError ParsedAnchor :=
  match anchor.toList with
  | 's' :: 'l' :: 'i' :: 'd' :: 'e' :: rest =>
    match parseNat rest with
    | some (ci, '_' :: rest1) =>
      match parseKind rest1 with
      | some (k, rest2) =>
        match parseNat rest2 with
        | some (li, '_' :: rest3) =>
          match parseDigest rest3 with
          | some dg => .ok ⟨ci, k, li, dg⟩
          | none => .error .malformedAnchor
        | _ => .error .malformedAnchor
      | none => .error .malformedAnchor
    | _ => .error .malformedAnchor
  | _ => .error .malformedAnchor

/-- A non-empty list of decimal digits. -/
def isDigitRun (l : List Char) : Prop :=
  l ≠ [] ∧ ∀ c ∈ l, c.isDigit = true

/-- The three-part anchor grammar
`slide{digits}_{kind}{digits}_{six hex chars}`. -/
def wellFormedAnchor (a : String) : Prop :=
  ∃ ds1 k ds2 hx, a.toList = 's' :: 'l' :: 'i' :: 'd' :: 'e' ::
      (ds1 ++ '_' :: (kindChars k ++ (ds2 ++ '_' :: hx))) ∧
    isDigitRun ds1 ∧ isDigitRun ds2 ∧ hx.length = 6 ∧ ∀ c ∈ hx, isHexDigitChar c = true

/-- Concrete conversation used to exhibit the loop's behaviour after two
failed edit attempts on the same task. -/
def c4_history : List Message :=
  [.human "Change the title of slide 2 to Roadmap",
   .ai "" [⟨"execute_pptx_code", "edit attempt 1"⟩],
   .toolMsg "Execution failed: Build failed:\nerror CS1002" "call_1",
   .ai "" [⟨"execute_pptx_code", "edit attempt 2"⟩],
   .toolMsg "Execution failed: Build failed:\nerror CS1002" "call_2",
   .ai "" [⟨"execute_pptx_code", "edit attempt 3"⟩]]

lemma rmtreeE_true : rmtreeE true = .ok false := rfl

lemma stepE_completed (r : ProcResult) (b : Bool) : stepE (.completed r) b = .ok r := rfl

lemma stepE_timedOut (b : Bool) : stepE .timedOut b = .error (.timeoutExpired, b) := rfl

lemma stepE_fault (m : String) (b : Bool) : stepE (.fault m) b = .error (.other m, b) := rfl

lemma csharpTryBody_ok_false (env : ModifyEnv) (d : ExecOutcome) (fs : Bool)
    (h : csharpTryBody env true = .ok (d, fs)) : fs = false := by
  rcases hR : env.restore with r | _ | m <;>
      simp only [csharpTryBody, hR, stepE, rmtreeE_true] at h
  · by_cases hrc : r.returncode ≠ 0
    · rw [if_pos hrc] at h
      simp only [Except.ok.injEq, Prod.mk.injEq] at h
      exact h.2.symm
    · rw [if_neg hrc] at h
      rcases hB : env.build with b | _ | mb <;>
          simp only [hB, stepE, rmtreeE_true] at h
      · by_cases hbc : b.returncode ≠ 0
        · rw [if_pos hbc] at h
          simp only [Except.ok.injEq, Prod.mk.injEq] at h
          exact h.2.symm
        · rw [if_neg hbc] at h
          rcases hP : env.run with p | _ | mp <;>
              simp only [hP, stepE, rmtreeE_true] at h
          · by_cases hp0 : p.returncode = 0
            · rw [if_pos hp0] at h
              simp only [Except.ok.injEq, Prod.mk.injEq] at h
              exact h.2.symm
            · rw [if_neg hp0] at h
              by_cases hp2 : p.returncode = 2
              · rw [if_pos hp2] at h
                simp only [Except.ok.injEq, Prod.mk.injEq] at h
                exact h.2.symm
              · rw [if_neg hp2] at h
                simp only [Except.ok.injEq, Prod.mk.injEq] at h
                exact h.2.symm
          · exact Except.noConfusion h
          · exact Except.noConfusion h
      · exact Except.noConfusion h
      · exact Except.noConfusion h
  · exact Except.noConfusion h
  · exact Except.noConfusion h

lemma csharpTryBody_error_true (env : ModifyEnv) (e : PyExc) (fs : Bool)
    (h : csharpTryBody env true = .error (e, fs)) : fs = true := by
  rcases hR : env.restore with r | _ | m <;>
      simp only [csharpTryBody, hR, stepE, rmtreeE_true] at h
  · by_cases hrc : r.returncode ≠ 0
    · rw [if_pos hrc] at h
      exact Except.noConfusion h
    · rw [if_neg hrc] at h
      rcases hB : env.build with b | _ | mb <;>
          simp only [hB, stepE, rmtreeE_true] at h
      · by_cases hbc : b.returncode ≠ 0
        · rw [if_pos hbc] at h
          exact Except.noConfusion h
        · rw [if_neg hbc] at h
          rcases hP : env.run with p | _ | mp <;>
              simp only [hP, stepE, rmtreeE_true] at h
          · by_cases hp0 : p.returncode = 0
            · rw [if_pos hp0] at h
              exact Except.noConfusion h
            · rw [if_neg hp0] at h
              by_cases hp2 : p.returncode = 2
              · rw [if_pos hp2] at h
                exact Except.noConfusion h
              · rw [if_neg hp2] at h
                exact Except.noConfusion h
          · simp only [Except.error.injEq, Prod.mk.injEq] at h
            exact h.2.symm
          · simp only [Except.error.injEq, Prod.mk.injEq] at h
            exact h.2.symm
      · simp only [Except.error.injEq, Prod.mk.injEq] at h
        exact h.2.symm
      · simp only [Except.error.injEq, Prod.mk.injEq] at h
        exact h.2.symm
  · simp only [Except.error.injEq, Prod.mk.injEq] at h
    exact h.2.symm
  · simp only [Except.error.injEq, Prod.mk.injEq] at h
    exact h.2.symm

/-- C1: when restore and build succeed and the child-process run completes
within the timeout, `execute_csharp_code` classifies the outcome solely by
the exit code: 0 yields success with stdout, the sentinel 2 yields the
validation-rejection failure carrying stdout, and any other non-zero code
yields a runtime failure carrying stderr, or stdout when stderr is empty. -/
theorem modify_run_exit_code_classification
    (t c : String) (r b p : ProcResult)
    (hr : r.returncode = 0) (hb : b.returncode = 0) :
    execute_csharp_code ⟨t, c, none, .completed r, .completed b, .completed p⟩ =
      (.returned (if p.returncode = 0 then .success p.stdout
        else if p.returncode = 2 then
          .failure ("Validation failed - the modifications would corrupt the PowerPoint file:\n"
            ++ p.stdout)
        else
          .failure ("Execution error: " ++
            (if p.stderr = "" then p.stdout else p.stderr))), false) := by
  by_cases hp0 : p.returncode = 0
  · simp [execute_csharp_code, csharpTryBody, stepE, rmtreeE_true, hr, hb, hp0]
  · by_cases hp2 : p.returncode = 2 <;>
      simp [execute_csharp_code, csharpTryBody, stepE, rmtreeE_true, hr, hb, hp0, hp2]

/-- Closed instance of `modify_run_exit_code_classification` at a concrete
environment. -/
theorem modify_run_exit_code_classification_witness :
    execute_csharp_code ⟨"class Program", "code", none, .completed ⟨0, "", ""⟩,
        .completed ⟨0, "", ""⟩, .completed ⟨2, "paragraph missing", ""⟩⟩ =
      (.returned (.failure
        ("Validation failed - the modifications would corrupt the PowerPoint file:\nparagraph missing")),
        false) := by
  have h := modify_run_exit_code_classification "class Program" "code"
    ⟨0, "", ""⟩ ⟨0, "", ""⟩ ⟨2, "paragraph missing", ""⟩ rfl rfl
  simpa using h

/-- C2: whenever `execute_csharp_code` returns a classified outcome dict, the
temporary working area no longer exists, and the guarded delete of the
generic-fault handler tolerates an already-absent working area. -/
theorem modify_cleanup_on_return (env : ModifyEnv) (d : ExecOutcome)
    (h : (execute_csharp_code env).1 = .returned d) :
    (execute_csharp_code env).2 = false ∧ guardedCleanup false = .ok false := by
  refine ⟨?_, rfl⟩
  rcases hc : env.copyFault with _ | m
  · rcases hb : csharpTryBody env true with ⟨e, fs2⟩ | ⟨d2, fs2⟩
    · have hfs := csharpTryBody_error_true env e fs2 hb
      subst hfs
      rcases e with _ | m2
      · simp [execute_csharp_code, hc, hb, rmtree]
      · simp [execute_csharp_code, hc, hb, guardedCleanup, rmtree]
    · have hfs := csharpTryBody_ok_false env d2 fs2 hb
      simp [execute_csharp_code, hc, hb, hfs]
  · simp [execute_csharp_code, hc] at h

/-- Closed instance of `modify_cleanup_on_return` at a concrete timeout-free
successful environment. -/
theorem modify_cleanup_on_return_witness :
    (execute_csharp_code ⟨"T", "c", none, .completed ⟨0, "", ""⟩, .completed ⟨0, "", ""⟩,
        .completed ⟨0, "done", ""⟩⟩).2 = false ∧ guardedCleanup false = .ok false :=
  modify_cleanup_on_return
    ⟨"T", "c", none, .completed ⟨0, "", ""⟩, .completed ⟨0, "", ""⟩, .completed ⟨0, "done", ""⟩⟩
    (.success "done") (by decide)

/-- C5 counterexample: the run timeout of the reading pipeline (60, graph.py
line 400) is not strictly smaller than the run timeout of the modify
pipeline (60, graph.py line 263). -/
theorem reading_timeout_not_less_than_modify :
    ¬ reading_run_timeout < modify_run_timeout := by decide

/-- C5 amended: both child-process run timeouts equal 60 seconds. -/
theorem reading_and_modify_timeouts_equal :
    reading_run_timeout = 60 ∧ modify_run_timeout = 60 ∧
      reading_run_timeout = modify_run_timeout := by decide

/-- C6: `preserve_value` keeps the current value on an unset update and takes
any set update, so a once-set path is never erased; the state merge applies
`preserve_value` only to the document-path field while the history field
always appends. -/
theorem preserve_value_last_known_good_policy :
    (∀ v : Option String, preserve_value v none = v) ∧
    (∀ (v : Option String) (u : String), preserve_value v (some u) = some u) ∧
    (∀ (v : String) (u : Option String), preserve_value (some v) u ≠ none) ∧
    (∀ s u : AgentState,
      (merge_state s u).pptx_file_path = preserve_value s.pptx_file_path u.pptx_file_path ∧
      (merge_state s u).messages = s.messages ++ u.messages) := by
  refine ⟨fun v => rfl, fun v u => rfl, fun v u => ?_, fun s u => ⟨rfl, rfl⟩⟩
  cases u <;> simp [preserve_value]

/-- C7: with the document path unset, each of the three tools answers the
fixed error string as an ordinary tool result — no exception — and the
result does not depend on the sandbox or reader environment, so the pipeline
is never consulted. -/
theorem tools_guard_unset_path (state : AgentState) (h : state.pptx_file_path = none)
    (code : String) (env env' : ModifyEnv) (nums nums' : List Int)
    (envr envr' : ReadingEnv) :
    execute_pptx_code code state env = .ok "Error: No PowerPoint file path provided in state" ∧
    execute_pptx_code code state env = execute_pptx_code code state env' ∧
    read_pptx_structure state envr = .ok "Error: No PowerPoint file path provided in state" ∧
    read_pptx_structure state envr = read_pptx_structure state envr' ∧
    read_slide_details nums state envr = .ok "Error: No PowerPoint file path provided in state" ∧
    read_slide_details nums state envr = read_slide_details nums' state envr' := by
  simp [execute_pptx_code, read_pptx_structure, read_slide_details, pathTruthy, h]

/-- Closed instance of `tools_guard_unset_path` at a concrete pathless state. -/
theorem tools_guard_unset_path_witness :
    execute_pptx_code "x" ⟨[], none⟩
        ⟨"T", "x", none, .completed ⟨0, "", ""⟩, .completed ⟨0, "", ""⟩, .completed ⟨0, "", ""⟩⟩ =
      .ok "Error: No PowerPoint file path provided in state" ∧
    read_pptx_structure ⟨[], none⟩ ⟨none, .completed ⟨0, "", ""⟩, .completed ⟨0, "", ""⟩⟩ =
      .ok "Error: No PowerPoint file path provided in state" := by
  have h := tools_guard_unset_path ⟨[], none⟩ rfl "x"
    ⟨"T", "x", none, .completed ⟨0, "", ""⟩, .completed ⟨0, "", ""⟩, .completed ⟨0, "", ""⟩⟩
    ⟨"T", "x", none, .completed ⟨0, "", ""⟩, .completed ⟨0, "", ""⟩, .completed ⟨0, "", ""⟩⟩
    [] [] ⟨none, .completed ⟨0, "", ""⟩, .completed ⟨0, "", ""⟩⟩
    ⟨none, .completed ⟨0, "", ""⟩, .completed ⟨0, "", ""⟩⟩
  exact ⟨h.1, h.2.2.1⟩

/-- C8: on build failure the error string is the compiler diagnostics
followed by the generated source excerpt; the excerpt is the 1-based
numbered lines of the generated source, truncated to at most the first 50. -/
theorem build_failure_reports_numbered_excerpt
    (t c : String) (r b : ProcResult) (run : StepOutcome)
    (hr : r.returncode = 0) (hb : b.returncode ≠ 0) :
    (execute_csharp_code ⟨t, c, none, .completed r, .completed b, run⟩).1 =
      .returned (.failure ("Build failed:\n" ++ b.stderr ++ "\n" ++ b.stdout ++
        "\n\nGenerated code (first 50 lines):\n" ++
        numberedExcerpt (fullCode ⟨t, c, none, .completed r, .completed b, run⟩))) ∧
    (∀ s : String,
      numberedExcerpt s = String.intercalate "\n" ((numberedLines s).take 50) ∧
      ((numberedLines s).take 50).length ≤ 50 ∧
      ∀ i : Nat, i < 50 →
        ((numberedLines s).take 50)[i]? =
          ((pySplitLines s)[i]?).map (fun line => toString (i + 1) ++ ": " ++ line)) := by
  constructor
  · simp [execute_csharp_code, csharpTryBody, stepE, rmtreeE_true, hr, hb]
  · intro s
    refine ⟨rfl, List.length_take_le 50 (numberedLines s), fun i hi => ?_⟩
    simp only [List.getElem?_take, hi, if_pos, numberedLines, List.getElem?_map,
      List.getElem?_enum, Option.map_map]
    rfl

/-- Closed instance of `build_failure_reports_numbered_excerpt` at a
concrete failing build. -/
theorem build_failure_reports_numbered_excerpt_witness :
    (execute_csharp_code ⟨"// {CODE}", "bad code", none, .completed ⟨0, "", ""⟩,
        .completed ⟨1, "", "error CS1002: ; expected"⟩, .completed ⟨0, "", ""⟩⟩).1 =
      .returned (.failure
        ("Build failed:\nerror CS1002: ; expected\n\n\nGenerated code (first 50 lines):\n1: bad code")) := by
  have h := (build_failure_reports_numbered_excerpt "// {CODE}" "bad code"
    ⟨0, "", ""⟩ ⟨1, "", "error CS1002: ; expected"⟩ (.completed ⟨0, "", ""⟩)
    rfl (by decide)).1
  exact h.trans (by rfl)

/-- C10: a reading-pipeline child process exiting with the reserved sentinel
code 2 is reported as a generic execution error (stderr, or stdout if stderr
is empty); only the edit pipeline maps exit code 2 to the
validation-rejection message. -/
theorem reading_sentinel_not_special
    (t c : String) (r0 b0 b p : ProcResult)
    (hb : b.returncode = 0) (h2 : p.returncode = 2)
    (hr0 : r0.returncode = 0) (hb0 : b0.returncode = 0) :
    execute_reading_code ⟨none, .completed b, .completed p⟩ =
      (.returned (.failure ("Execution error: " ++
        (if p.stderr = "" then p.stdout else p.stderr))), false) ∧
    execute_csharp_code ⟨t, c, none, .completed r0, .completed b0, .completed p⟩ =
      (.returned (.failure
        ("Validation failed - the modifications would corrupt the PowerPoint file:\n"
          ++ p.stdout)), false) := by
  constructor
  · simp [execute_reading_code, readingTryBody, stepE, rmtreeE_true, hb, h2]
  · simp [execute_csharp_code, csharpTryBody, stepE, rmtreeE_true, hr0, hb0, h2]

/-- Closed instance of `reading_sentinel_not_special` at a concrete sentinel
exit. -/
theorem reading_sentinel_not_special_witness :
    execute_reading_code ⟨none, .completed ⟨0, "", ""⟩,
        .completed ⟨2, "paragraph missing", ""⟩⟩ =
      (.returned (.failure "Execution error: paragraph missing"), false) := by
  have h := (reading_sentinel_not_special "T" "c" ⟨0, "", ""⟩ ⟨0, "", ""⟩ ⟨0, "", ""⟩
    ⟨2, "paragraph missing", ""⟩ rfl rfl rfl rfl).1
  simpa using h

/-- C3: the loop ends exactly when the latest turn proposes zero tool calls;
otherwise it routes to the tools node, and the graph wires tool results back
to the decision node. -/
theorem should_continue_ends_iff_no_tool_calls (state : AgentState) (last : Message)
    (h : state.messages.getLast? = some last) :
    (should_continue state = some "end" ↔ hasToolCalls last = false) ∧
    (should_continue state = some "tools" ↔ hasToolCalls last = true) ∧
    ("tools", "llm") ∈ workflow_edges ∧
    ("tools", "tools") ∈ workflow_conditional_map ∧
    ("end", "__end__") ∈ workflow_conditional_map := by
  refine ⟨?_, ?_, by simp [workflow_edges], by simp [workflow_conditional_map],
    by simp [workflow_conditional_map]⟩ <;>
      cases hht : hasToolCalls last <;> simp [should_continue, h, hht]

/-- Closed instance of `should_continue_ends_iff_no_tool_calls`: a final AI
turn without tool calls ends the loop. -/
theorem should_continue_ends_iff_no_tool_calls_witness :
    should_continue ⟨[.human "hi", .ai "done" []], some "deck.pptx"⟩ = some "end" :=
  (should_continue_ends_iff_no_tool_calls ⟨[.human "hi", .ai "done" []], some "deck.pptx"⟩
    (.ai "done" []) (by decide)).1.mpr (by decide)

/-- C4 counterexample: after two failed edit attempts on the same task, a
third proposed attempt is still routed to the tools node — the loop does not
end, so the code does make a further automatic attempt. -/
theorem third_attempt_after_two_failures_routed_to_tools :
    should_continue ⟨c4_history, some "deck.pptx"⟩ = some "tools" ∧
    should_continue ⟨c4_history, some "deck.pptx"⟩ ≠ some "end" := by
  constructor <;> decide

/-- C4 amended: the one-retry bound is not enforced by the control loop; the
routing decision depends only on whether the latest message proposes tool
calls, ignoring any earlier failures in the history (the bound exists only
as a system-prompt instruction to the external decision function). -/
theorem retry_bound_not_enforced_by_loop (pre : List Message) (m : Message)
    (path : Option String) :
    should_continue ⟨pre ++ [m], path⟩ =
      some (if hasToolCalls m then "tools" else "end") := by
  rw [show pre ++ [m] = pre.concat m from (List.concat_eq_append pre m).symm]
  simp [should_continue, List.getLast?_concat]

lemma digitChar_isDigit (d : Nat) (h : d < 10) : (digitChar d).isDigit = true := by
  interval_cases d <;> decide

lemma digitChar_toNat (d : Nat) (h : d < 10) : (digitChar d).toNat = 48 + d := by
  interval_cases d <;> decide

lemma natDigitsCore_zero (fuel : Nat) (acc : List Char) : natDigitsCore fuel 0 acc = acc := by
  cases fuel <;> rfl

lemma readDigits_stop (n : Nat) (rest : List Char) (h : headNotDigit rest) :
    readDigits n rest = (n, rest) := by
  cases rest with
  | nil => rfl
  | cons c cs => simp [readDigits, headNotDigit] at h ⊢; simp [h]

lemma readDigits_natDigitsCore (fuel : Nat) : ∀ (n a : Nat) (rest : List Char), n ≤ fuel →
    ∃ k, readDigits a (natDigitsCore fuel n rest) = readDigits (a * 10 ^ k + n) rest := by
  induction fuel with
  | zero =>
    intro n a rest hn
    refine ⟨0, ?_⟩
    interval_cases n
    simp [natDigitsCore]
  | succ fuel ih =>
    intro n a rest hn
    match n with
    | 0 => exact ⟨0, by simp [natDigitsCore_zero]⟩
    | m + 1 =>
      have hle : (m + 1) / 10 ≤ fuel := by omega
      obtain ⟨k, hk⟩ := ih ((m + 1) / 10) a (digitChar ((m + 1) % 10) :: rest) hle
      refine ⟨k + 1, ?_⟩
      have hlt : (m + 1) % 10 < 10 := Nat.mod_lt _ (by decide)
      calc readDigits a (natDigitsCore (fuel + 1) (m + 1) rest)
          = readDigits a (natDigitsCore fuel ((m + 1) / 10) (digitChar ((m + 1) % 10) :: rest)) := rfl
        _ = readDigits (a * 10 ^ k + (m + 1) / 10) (digitChar ((m + 1) % 10) :: rest) := hk
        _ = readDigits ((a * 10 ^ k + (m + 1) / 10) * 10 +
              ((digitChar ((m + 1) % 10)).toNat - 48)) rest := by
            simp [readDigits, digitChar_isDigit _ hlt]
        _ = readDigits (a * 10 ^ (k + 1) + (m + 1)) rest := by
            congr 1
            rw [digitChar_toNat _ hlt, pow_succ, ← mul_assoc]
            generalize a * 10 ^ k = t
            omega

lemma natDigitsCore_head_digit (fuel : Nat) : ∀ (n : Nat) (acc : List Char), 0 < n → n ≤ fuel →
    ∃ c cs, natDigitsCore fuel n acc = c :: cs ∧ c.isDigit = true := by
  induction fuel with
  | zero => intro n acc h1 h2; omega
  | succ fuel ih =>
    intro n acc h1 h2
    match n with
    | m + 1 =>
      by_cases h10 : (m + 1) / 10 = 0
      · refine ⟨digitChar ((m + 1) % 10), acc, ?_, digitChar_isDigit _ (Nat.mod_lt _ (by decide))⟩
        show natDigitsCore fuel ((m + 1) / 10) (digitChar ((m + 1) % 10) :: acc) = _
        rw [h10, natDigitsCore_zero]
      · exact ih ((m + 1) / 10) (digitChar ((m + 1) % 10) :: acc) (by omega) (by omega)

lemma natDigitsCore_append (fuel : Nat) : ∀ (n : Nat) (acc : List Char),
    natDigitsCore fuel n acc = natDigitsCore fuel n [] ++ acc := by
  induction fuel with
  | zero => intro n acc; simp [natDigitsCore]
  | succ fuel ih =>
    intro n acc
    match n with
    | 0 => simp [natDigitsCore]
    | m + 1 =>
      show natDigitsCore fuel ((m + 1) / 10) (digitChar ((m + 1) % 10) :: acc) = _
      rw [ih ((m + 1) / 10) (digitChar ((m + 1) % 10) :: acc),
        show natDigitsCore (fuel + 1) (m + 1) [] =
          natDigitsCore fuel ((m + 1) / 10) [digitChar ((m + 1) % 10)] from rfl,
        ih ((m + 1) / 10) [digitChar ((m + 1) % 10)]]
      simp

lemma parseNat_natDigits (n : Nat) (rest : List Char) (h : headNotDigit rest) :
    parseNat (natDigits n ++ rest) = some (n, rest) := by
  by_cases h0 : n = 0
  · subst h0
    show parseNat ('0' :: rest) = some (0, rest)
    have hd : ('0' : Char).isDigit = true := by decide
    simp only [parseNat, hd, if_true]
    rw [show ('0' : Char).toNat - 48 = 0 from rfl]
    exact congrArg some (readDigits_stop 0 rest h)
  · have hpos : 0 < n := Nat.pos_of_ne_zero h0
    obtain ⟨c, cs, hc, hcd⟩ := natDigitsCore_head_digit n n [] hpos le_rfl
    have hfull : natDigits n ++ rest = natDigitsCore n n rest := by
      rw [natDigitsCore_append n n rest, natDigits, if_neg h0]
    obtain ⟨k, hk⟩ := readDigits_natDigitsCore n n 0 rest le_rfl
    have hread : readDigits 0 (natDigitsCore n n rest) = (n, rest) := by
      rw [hk]
      simpa using readDigits_stop n rest h
    have hcons : natDigitsCore n n rest = c :: (cs ++ rest) := by
      rw [natDigitsCore_append n n rest, hc]; simp
    rw [hfull, hcons]
    have h2 : readDigits 0 (c :: (cs ++ rest)) = (n, rest) := by rw [← hcons]; exact hread
    simp [readDigits, hcd] at h2
    simp [parseNat, hcd, h2]

lemma hexChar_isHexDigit (d : Nat) (h : d < 16) : isHexDigitChar (hexChar d) = true := by
  interval_cases d <;> decide

lemma parseKind_kindChars (k : AnchorKind) (rest : List Char) :
    parseKind (kindChars k ++ rest) = some (k, rest) := by
  cases k <;> rfl

lemma parseDigest_digestChars (h : Nat) :
    parseDigest (digestChars h) = some ⟨digestChars h⟩ := by
  have h16 : ∀ x : Nat, x % 16 < 16 := fun x => Nat.mod_lt _ (by decide)
  simp [digestChars, parseDigest, hexChar_isHexDigit _ (h16 _)]

lemma anchor_roundtrip (i : Nat) (k : AnchorKind) (j : Nat) (c : String) :
    parse (encode i k j c) = .ok ⟨i, k, j, digestOf c⟩ := by
  have hu : Char.isDigit '_' = false := by decide
  have h1 := parseNat_natDigits i
    ('_' :: (kindChars k ++ (natDigits j ++ '_' :: digestChars (contentHash c)))) hu
  have h3 := parseNat_natDigits j ('_' :: digestChars (contentHash c)) hu
  unfold parse
  rw [show (encode i k j c).toList = 's' :: 'l' :: 'i' :: 'd' :: 'e' ::
    (natDigits i ++ '_' :: (kindChars k ++ (natDigits j ++ '_' :: digestChars (contentHash c))))
    from rfl]
  simp only [h1, parseKind_kindChars, h3, parseDigest_digestChars, digestOf]

lemma readDigits_sound (l : List Char) : ∀ (a n : Nat) (rest : List Char),
    readDigits a l = (n, rest) →
    ∃ ds, l = ds ++ rest ∧ ∀ c ∈ ds, c.isDigit = true := by
  induction l with
  | nil =>
    intro a n rest h
    simp [readDigits] at h
    exact ⟨[], by simp [h.2.symm], by simp⟩
  | cons c cs ih =>
    intro a n rest h
    by_cases hc : c.isDigit = true
    · simp [readDigits, hc] at h
      obtain ⟨ds, hds, hall⟩ := ih _ _ _ h
      exact ⟨c :: ds, by simp [hds], by simpa [hc] using hall⟩
    · have hc2 : c.isDigit = false := by simpa using hc
      simp [readDigits, hc2] at h
      refine ⟨[], by simp [h.2], by simp⟩

lemma parseNat_sound (l : List Char) (n : Nat) (rest : List Char)
    (h : parseNat l = some (n, rest)) :
    ∃ ds, l = ds ++ rest ∧ isDigitRun ds := by
  cases l with
  | nil => simp [parseNat] at h
  | cons c cs =>
    by_cases hc : c.isDigit = true
    · simp [parseNat, hc] at h
      obtain ⟨ds, hds, hall⟩ := readDigits_sound cs _ _ _ h
      exact ⟨c :: ds, by simp [hds], by simp, by simpa [hc] using hall⟩
    · have hc2 : c.isDigit = false := by simpa using hc
      simp [parseNat, hc2] at h

lemma parseKind_sound (l : List Char) (k : AnchorKind) (rest : List Char)
    (h : parseKind l = some (k, rest)) : l = kindChars k ++ rest := by
  unfold parseKind at h
  split at h <;>
    first
      | exact Option.noConfusion h
      | (simp only [Option.some.injEq, Prod.mk.injEq] at h
         obtain ⟨rfl, rfl⟩ := h
         rfl)

lemma parseDigest_sound (l : List Char) (dg : String)
    (h : parseDigest l = some dg) :
    l.length = 6 ∧ (∀ c ∈ l, isHexDigitChar c = true) := by
  unfold parseDigest at h
  split at h
  · split_ifs at h with hx
    simp_all
  · exact Option.noConfusion h

lemma parse_sound (a : String) (r : ParsedAnchor) (h : parse a = .ok r) :
    wellFormedAnchor a := by
  unfold parse at h
  split at h <;> try exact Except.noConfusion h
  rename_i rest heq
  split at h <;> try exact Except.noConfusion h
  rename_i ci rest1 hn1
  split at h <;> try exact Except.noConfusion h
  rename_i k2 rest2 hk
  split at h <;> try exact Except.noConfusion h
  rename_i li rest3 hn2
  split at h <;> try exact Except.noConfusion h
  rename_i dg hd
  obtain ⟨ds1, hds1, hrun1⟩ := parseNat_sound rest ci ('_' :: rest1) hn1
  obtain ⟨ds2, hds2, hrun2⟩ := parseNat_sound rest2 li ('_' :: rest3) hn2
  have hkind := parseKind_sound rest1 k2 rest2 hk
  have hdg := parseDigest_sound rest3 dg hd
  refine ⟨ds1, k2, ds2, rest3, ?_, hrun1, hrun2, hdg.1, hdg.2⟩
  rw [heq, hds1, hkind, hds2]

lemma parse_not_wellFormed (a : String) (h : ¬ wellFormedAnchor a) :
    parse a = .error .malformedAnchor := by
  cases hp : parse a with
  | error e => cases e; rfl
  | ok r => exact absurd (parse_sound a r hp) h

/-- C9: parsing an encoded anchor recovers the container index, kind and
local index exactly, together with a digest equal to a fresh hash of the
content; and parse fails with `MalformedAnchor` on every token that does
not match the three-part anchor grammar. -/
theorem anchor_roundtrip_and_malformed :
    (∀ (i : Nat) (k : AnchorKind) (j : Nat) (c : String),
      parse (encode i k j c) = .ok ⟨i, k, j, digestOf c⟩) ∧
    (∀ a : String, ¬ wellFormedAnchor a → parse a = .error .malformedAnchor) :=
  ⟨anchor_roundtrip, parse_not_wellFormed⟩

/-- Closed instance of `anchor_roundtrip_and_malformed`: a concrete
round-trip and a concrete malformed token. -/
theorem anchor_roundtrip_and_malformed_witness :
    parse (encode 1 .title 0 "Hello") = .ok ⟨1, .title, 0, digestOf "Hello"⟩ ∧
    parse "" = .error .malformedAnchor := by
  refine ⟨anchor_roundtrip_and_malformed.1 1 .title 0 "Hello",
    anchor_roundtrip_and_malformed.2 "" ?_⟩
  rintro ⟨ds1, k, ds2, hx, hEq, -, -, -, -⟩
  exact List.noConfusion hEq

end PptxAgent
